import Mathlib

/-!
Verification of the altrion-frontend session/account-linking layer:
the Session Store (`src/store/authStore.ts`), the Route Guards
(`src/components/routing/ProtectedRoute.tsx`) and the Connection
Workflow (`platformService`), shallowly embedded in Lean 4.
-/

namespace Altrion

/-- Modelled from the spec: the `User` identity record imported from
`@/types` is not part of this module's sources; the spec says it is
"opaque to this module beyond presence/absence", so it is embedded as an
abstract record with a single opaque field. -/
structure User where
  raw : String
deriving Repr, DecidableEq

/-- The `AuthState` interface of `src/store/authStore.ts`: optional
fields of the TypeScript store become `Option` fields. -/
structure AuthState where
  user : Option User
  token : Option String
  isAuthenticated : Bool
  isLoading : Bool
  error : Option String
  hasCompletedOnboarding : Bool
  justSignedUp : Bool
deriving Repr, DecidableEq

/-- `initialState` of `src/store/authStore.ts`. -/
def initialState : AuthState :=
  { user := none
  , token := none
  , isAuthenticated := false
  , isLoading := false
  , error := none
  , hasCompletedOnboarding := false
  , justSignedUp := false }

/-- The mutating actions exposed by `useAuthStore`. `login` takes a
non-null `User`, matching the TypeScript signature
`login: (user: User, token: string) => void`. -/
inductive AuthAction where
  | setUser (user : Option User)
  | setToken (token : Option String)
  | setLoading (loading : Bool)
  | setError (error : Option String)
  | login (user : User) (token : String)
  | logout
  | clearError
  | completeOnboarding
  | setJustSignedUp (value : Bool)
deriving Repr, DecidableEq

/-- One `set` call of the store: each branch transcribes the body of the
corresponding action in `src/store/authStore.ts`.  `!!user` of the
`setUser` action becomes `Option.isSome`. -/
def applyAction (s : AuthState) : AuthAction → AuthState
  | .setUser u => { s with user := u, isAuthenticated := u.isSome }
  | .setToken t => { s with token := t }
  | .setLoading l => { s with isLoading := l }
  | .setError e => { s with error := e }
  | .login u t =>
      { s with user := some u, token := some t
             , isAuthenticated := true, error := none }
  | .logout =>
      { s with user := none, token := none, isAuthenticated := false
             , error := none, hasCompletedOnboarding := false
             , justSignedUp := false }
  | .clearError => { s with error := none }
  | .completeOnboarding => { s with hasCompletedOnboarding := true }
  | .setJustSignedUp v => { s with justSignedUp := v }

/-- A sequence of actions applied from a state, left to right. -/
def runActions (s : AuthState) (acts : List AuthAction) : AuthState :=
  acts.foldl applyAction s

/-- The spec's invariant: `isAuthenticated == (user != null)`. -/
def authInvariant (s : AuthState) : Prop :=
  s.isAuthenticated = s.user.isSome

instance (s : AuthState) : Decidable (authInvariant s) := by
  unfold authInvariant; infer_instance

/-- The persisted subset selected by `partialize` in
`src/store/authStore.ts`. -/
structure PersistedAuth where
  user : Option User
  token : Option String
  isAuthenticated : Bool
  hasCompletedOnboarding : Bool
deriving Repr, DecidableEq

/-- `partialize` of `src/store/authStore.ts`: the snapshot written to
durable storage after each mutation. -/
def partialize (s : AuthState) : PersistedAuth :=
  { user := s.user
  , token := s.token
  , isAuthenticated := s.isAuthenticated
  , hasCompletedOnboarding := s.hasCompletedOnboarding }

/-- Modelled from the spec: rehydration is performed by the `persist`
middleware (library code outside this repository); the spec says the
stored subset is "deserialized and merged over defaults (missing fields
take initial-state values); `isLoading`, `error`, `justSignedUp` always
start at their defaults regardless of stored data". -/
def rehydrate (p : PersistedAuth) : AuthState :=
  { initialState with
      user := p.user
    , token := p.token
    , isAuthenticated := p.isAuthenticated
    , hasCompletedOnboarding := p.hasCompletedOnboarding }

lemma applyAction_preserves_invariant (s : AuthState) (a : AuthAction)
    (h : authInvariant s) : authInvariant (applyAction s a) := by
  cases a <;> simp_all [authInvariant, applyAction]

lemma runActions_preserves_invariant (s : AuthState) (acts : List AuthAction)
    (h : authInvariant s) : authInvariant (runActions s acts) := by
  induction acts generalizing s with
  | nil => exact h
  | cons a rest ih =>
      exact ih _ (applyAction_preserves_invariant s a h)

/-- C1: every sequence of Session Store actions applied from the initial
state preserves the invariant `isAuthenticated == (user != null)`; the
invariant holds after each action completes (every prefix of a sequence
is itself a sequence). -/
theorem auth_invariant_holds (acts : List AuthAction) :
    authInvariant (runActions initialState acts) :=
  runActions_preserves_invariant initialState acts (by decide)

/-- C2: after `login(u, t)` the state has `isAuthenticated = true`,
`user = u`, `token = t`, `error = null`, while `justSignedUp`,
`hasCompletedOnboarding` and `isLoading` keep their previous values. -/
theorem login_spec (s : AuthState) (u : User) (t : String) :
    (applyAction s (.login u t)).isAuthenticated = true ∧
    (applyAction s (.login u t)).user = some u ∧
    (applyAction s (.login u t)).token = some t ∧
    (applyAction s (.login u t)).error = none ∧
    (applyAction s (.login u t)).justSignedUp = s.justSignedUp ∧
    (applyAction s (.login u t)).hasCompletedOnboarding
      = s.hasCompletedOnboarding ∧
    (applyAction s (.login u t)).isLoading = s.isLoading := by
  simp [applyAction]

/-- C3: `logout()` resets the state to the module's initial defaults in
every field except `isLoading`, which is unchanged. -/
theorem logout_spec (s : AuthState) :
    applyAction s .logout = { initialState with isLoading := s.isLoading } := by
  simp [applyAction, initialState]

/-- C4: the persisted snapshot holds exactly
`{user, token, isAuthenticated, hasCompletedOnboarding}`; rehydrating it
over the defaults reproduces those four fields exactly, while
`isLoading`, `error` and `justSignedUp` take their initial-default
values regardless of their prior values. -/
theorem persist_roundtrip (s : AuthState) :
    partialize (rehydrate (partialize s)) = partialize s ∧
    (rehydrate (partialize s)).user = s.user ∧
    (rehydrate (partialize s)).token = s.token ∧
    (rehydrate (partialize s)).isAuthenticated = s.isAuthenticated ∧
    (rehydrate (partialize s)).hasCompletedOnboarding
      = s.hasCompletedOnboarding ∧
    (rehydrate (partialize s)).isLoading = initialState.isLoading ∧
    (rehydrate (partialize s)).error = initialState.error ∧
    (rehydrate (partialize s)).justSignedUp = initialState.justSignedUp := by
  simp [partialize, rehydrate]

/-- Modelled from the spec: the route constants `ROUTES.LOGIN`,
`ROUTES.DASHBOARD`, `ROUTES.ONBOARDING` come from `@/constants`, which
is outside this module's sources; the spec only names "the login route",
"the dashboard route" and "a fixed onboarding route", so they are
embedded as fixed distinct path strings. -/
def routesLogin : String := "/login"

/-- Modelled from the spec: the dashboard route constant (see
`routesLogin`). -/
def routesDashboard : String := "/dashboard"

/-- Modelled from the spec: the fixed onboarding route constant (see
`routesLogin`). -/
def routesOnboarding : String := "/onboarding"

/-- The navigation location read by the guards: `location.pathname` and
the optional `from` field of `location.state` (typed
`\x7b from?: string \x7d` in the source). -/
structure Location where
  pathname : String
  stateFrom : Option String
deriving Repr, DecidableEq

/-- What a render of a guard produces: either the children unchanged, or
a `Navigate` element with a target, an optional `\x7b from \x7d` state
payload and the `replace` flag. -/
inductive RenderResult (α : Type) where
  | content (children : α)
  | navigate (target : String) (stateFrom : Option String) (replace : Bool)
deriving Repr, DecidableEq

/-- JavaScript `a || b` over an optional string: `undefined` and the
empty string are falsy. -/
def jsOrString (a : Option String) (b : String) : String :=
  match a with
  | none => b
  | some s => if s = "" then b else s

/-- The TypeScript default of the `redirectTo` prop of `ProtectedRoute`:
`redirectTo = ROUTES.LOGIN`. -/
def protectedRouteDefaultRedirect : String := routesLogin

/-- `ProtectedRoute` of `src/components/routing/ProtectedRoute.tsx`:
if not authenticated, navigate to `redirectTo` with state
`\x7b from: location.pathname \x7d` and `replace`; otherwise render the
children. -/
def ProtectedRoute {α : Type} (isAuthenticated : Bool) (location : Location)
    (children : α) (redirectTo : String) : RenderResult α :=
  if !isAuthenticated then
    .navigate redirectTo (some location.pathname) true
  else
    .content children

/-- The TypeScript default of the `redirectTo` prop of
`PublicOnlyRoute`: `redirectTo = ROUTES.DASHBOARD`. -/
def publicOnlyRouteDefaultRedirect : String := routesDashboard

/-- `PublicOnlyRoute` of `src/components/routing/ProtectedRoute.tsx`:
if authenticated and `justSignedUp`, navigate to the onboarding route
with `replace`; if authenticated otherwise, navigate to
`from || redirectTo` with `replace`; else render the children. -/
def PublicOnlyRoute {α : Type} (isAuthenticated justSignedUp : Bool)
    (location : Location) (children : α) (redirectTo : String) :
    RenderResult α :=
  if isAuthenticated then
    if justSignedUp then
      .navigate routesOnboarding none true
    else
      .navigate (jsOrString location.stateFrom redirectTo) none true
  else
    .content children

/-- C5: for every current path and every `redirectTo`, the Protected
wrapper redirects to `redirectTo` with state `\x7b from: path \x7d` and
history replacement when unauthenticated, and renders its children
unchanged when authenticated; the decision ignores any incoming
navigation state, depending only on the flag and the path.  The default
`redirectTo` is the login route. -/
theorem protectedRoute_spec {α : Type} (children : α) (p : String)
    (sf : Option String) (redirectTo : String) :
    ProtectedRoute false ⟨p, sf⟩ children redirectTo
      = .navigate redirectTo (some p) true ∧
    ProtectedRoute true ⟨p, sf⟩ children redirectTo = .content children ∧
    protectedRouteDefaultRedirect = routesLogin := by
  refine ⟨rfl, rfl, rfl⟩

/-- C6 counterexample: with `isAuthenticated = true`,
`justSignedUp = false` and a present return-url that is the empty
string, the code redirects to `redirectTo` (here the dashboard route),
not to the carried return-url, because JavaScript `||` treats the empty
string as falsy. -/
theorem publicOnlyRoute_emptyFrom_counterexample :
    PublicOnlyRoute true false ⟨"/login", some ""⟩ () routesDashboard
        = .navigate routesDashboard none true ∧
    PublicOnlyRoute true false ⟨"/login", some ""⟩ () routesDashboard
        ≠ .navigate "" none true := by
  refine ⟨rfl, by decide⟩

/-- C6 amended: if authenticated and `justSignedUp`, the Public-only
wrapper redirects to the fixed onboarding route with replacement,
regardless of any return-url; if authenticated and not `justSignedUp`,
it redirects to the return-url carried in navigation state when that
return-url is present and non-empty, and otherwise to `redirectTo`
(whose default is the dashboard route); if not authenticated it renders
its children unchanged. -/
theorem publicOnlyRoute_spec {α : Type} (children : α) (p s rt : String)
    (sf : Option String) (jsu : Bool) :
    PublicOnlyRoute true true ⟨p, sf⟩ children rt
      = .navigate routesOnboarding none true ∧
    (s ≠ "" →
      PublicOnlyRoute true false ⟨p, some s⟩ children rt
        = .navigate s none true) ∧
    PublicOnlyRoute true false ⟨p, none⟩ children rt
      = .navigate rt none true ∧
    PublicOnlyRoute true false ⟨p, some ""⟩ children rt
      = .navigate rt none true ∧
    PublicOnlyRoute false jsu ⟨p, sf⟩ children rt = .content children ∧
    publicOnlyRouteDefaultRedirect = routesDashboard := by
  refine ⟨rfl, fun hs => ?_, rfl, rfl, ?_, rfl⟩
  · simp [PublicOnlyRoute, jsOrString, hs]
  · cases jsu <;> rfl

/-- Witness for `publicOnlyRoute_spec` at the concrete return-url
`/custom`. -/
theorem publicOnlyRoute_spec_witness :
    PublicOnlyRoute true false ⟨"/login", some "/custom"⟩ () routesDashboard
      = .navigate "/custom" none true :=
  (publicOnlyRoute_spec () "/login" "/custom" routesDashboard
    (some "/custom") false).2.1 (by decide)

/-- Backend platform category, `category: 'crypto' | 'bank' | 'broker'`. -/
inductive PlatformCategory where
  | crypto
  | bank
  | broker
deriving Repr, DecidableEq

/-- The `BackendPlatform` response type of `platformService`. -/
structure BackendPlatform where
  id : String
  name : String
  icon : String
  category : PlatformCategory
deriving Repr, DecidableEq

/-- `ConnectionStatus` from `@/types`: the spec fixes it as the set
`\x7bpending, connecting, success, error\x7d`, the same values the
backend sends, so the TypeScript cast `as ConnectionStatus` is the
identity here. -/
inductive ConnectionStatus where
  | pending
  | connecting
  | success
  | error
deriving Repr, DecidableEq

/-- The `BackendConnectionResponse` type of `platformService`. -/
structure BackendConnectionResponse where
  platform_id : String
  status : ConnectionStatus
  message : Option String
  account_id : Option String
deriving Repr, DecidableEq

/-- The local `Platform` value object. -/
structure Platform where
  id : String
  name : String
  icon : String
  category : PlatformCategory
deriving Repr, DecidableEq

/-- The `ConnectionResult` value object exported by `platformService`. -/
structure ConnectionResult where
  platformId : String
  status : ConnectionStatus
  message : Option String
deriving Repr, DecidableEq

/-- An error thrown inside the `try` block of a workflow operation (the
`catch` clauses never inspect it beyond logging). -/
structure ApiError where
  message : String
deriving Repr, DecidableEq

/-- The outcome of the single backend round trip of an operation:
either the parsed response body or a thrown transport/backend error. -/
def ApiOutcome (β : Type) : Type := Except ApiError β

/-- The grouped result of `getPlatforms`. -/
structure PlatformGroups where
  crypto : List Platform
  banks : List Platform
  brokers : List Platform
deriving Repr, DecidableEq

/-- `platformService.getPlatforms`, with the backend call's outcome made
an explicit argument.  The `try` branch maps, filters for wallet and
plaid ids and substitutes the fallback wallet when no wallet platform
came back; the `catch` branch returns the fixed fallback set. -/
def getPlatforms (outcome : ApiOutcome (List BackendPlatform)) :
    PlatformGroups :=
  match outcome with
  | .ok data =>
      let platforms : List Platform := data.map (fun platform =>
        { id := platform.id, name := platform.name
        , icon := platform.icon, category := platform.category })
      let walletPlatforms := platforms.filter (fun platform => platform.id == "wallet")
      let bankPlatforms := platforms.filter (fun platform => platform.id == "plaid")
      let fallbackWallet : Platform :=
        { id := "wallet", name := "Wallet", icon := "/wallet.svg"
        , category := .crypto }
      let cryptoPlatforms :=
        if walletPlatforms.length > 0 then walletPlatforms else [fallbackWallet]
      { crypto := cryptoPlatforms, banks := bankPlatforms, brokers := [] }
  | .error _ =>
      { crypto := [{ id := "wallet", name := "Wallet", icon := "/wallet.svg"
                   , category := .crypto }]
      , banks := [{ id := "plaid", name := "Plaid", icon := "/plaid.svg"
                  , category := .bank }]
      , brokers := [] }

/-- The `credentials` argument of `connectWithCredentials`
(`PlatformCredentials | Record<string, string>`): embedded as a list of
key-value pairs; it only shapes the request body, never the result. -/
def Credentials : Type := List (String × String)

/-- The `ApiKeyCredentials` shape from `@/schemas`. -/
structure ApiKeyCredentials where
  apiKey : String
  apiSecret : String
deriving Repr, DecidableEq

/-- `platformService.connectWithCredentials`: on a successful backend
response, translate `platform_id`, `status` and `message`; on a thrown
error, return the fixed error result echoing the input `platformId`. -/
def connectWithCredentials (platformId : String) (credentials : Credentials)
    (outcome : ApiOutcome BackendConnectionResponse) : ConnectionResult :=
  match credentials, outcome with
  | _, .ok data =>
      { platformId := data.platform_id
      , status := data.status
      , message := data.message }
  | _, .error _ =>
      { platformId := platformId
      , status := .error
      , message := some "Failed to connect. Please check your credentials." }

/-- `platformService.connectWithApiKey`: same endpoint shape as
`connectWithCredentials` with payload keys `api_key` and `api_secret`;
on a thrown error, the fixed error result echoing `platformId`. -/
def connectWithApiKey (platformId : String) (apiCredentials : ApiKeyCredentials)
    (outcome : ApiOutcome BackendConnectionResponse) : ConnectionResult :=
  match apiCredentials, outcome with
  | _, .ok data =>
      { platformId := data.platform_id
      , status := data.status
      , message := data.message }
  | _, .error _ =>
      { platformId := platformId
      , status := .error
      , message := some "Invalid API credentials." }

/-- One entry of the `GET /platforms/connected` payload: a platform with
its list of accounts. -/
structure ConnectedAccount where
  id : String
  name : String
  last_synced_at : Option String
  error_message : Option String
deriving Repr, DecidableEq

/-- A platform together with its connected accounts, as returned by the
backend. -/
structure ConnectedItem where
  platform : BackendPlatform
  accounts : List ConnectedAccount
deriving Repr, DecidableEq

/-- `platformService.getConnectedPlatforms`: the nested `forEach`/`push`
loops become nested left folds accumulating the flattened list; on a
thrown error, the empty list. -/
def getConnectedPlatforms (outcome : ApiOutcome (List ConnectedItem)) :
    List Platform :=
  match outcome with
  | .error _ => []
  | .ok data =>
      data.foldl (fun platforms item =>
        item.accounts.foldl (fun platforms account =>
          platforms ++ [{ id := account.id
                        , name := account.name
                        , icon := item.platform.icon
                        , category := item.platform.category }]) platforms) []

lemma foldl_push_eq_append_map {α β : Type} (f : α → β) (l : List α)
    (acc : List β) :
    l.foldl (fun ps x => ps ++ [f x]) acc = acc ++ l.map f := by
  induction l generalizing acc with
  | nil => simp
  | cons x xs ih => simp [ih]

lemma nested_foldl_push_eq_flatMap {α β γ : Type} (pf : α → β → γ)
    (inner : α → List β) (l : List α) (acc : List γ) :
    l.foldl (fun ps x => (inner x).foldl (fun ps y => ps ++ [pf x y]) ps) acc
      = acc ++ l.flatMap (fun x => (inner x).map (pf x)) := by
  induction l generalizing acc with
  | nil => simp
  | cons x xs ih =>
      rw [List.foldl_cons, foldl_push_eq_append_map, ih]
      simp

/-- C7: `connectWithCredentials` and `connectWithApiKey` are total, and
whenever the backend call fails they return the fixed error result that
echoes the input `platformId` with the operation's message. -/
theorem connect_error_fallback (platformId : String) (creds : Credentials)
    (keys : ApiKeyCredentials) (e : ApiError) :
    connectWithCredentials platformId creds (.error e)
      = { platformId := platformId, status := .error
        , message := some "Failed to connect. Please check your credentials." } ∧
    connectWithApiKey platformId keys (.error e)
      = { platformId := platformId, status := .error
        , message := some "Invalid API credentials." } := by
  exact ⟨rfl, rfl⟩

/-- C8: whenever the backend call of `getPlatforms` fails, the result is
exactly the fixed fallback set: one default wallet entry (id `wallet`)
in crypto, one default Plaid entry (id `plaid`) in banks, and an empty
brokers group. -/
theorem getPlatforms_error_fallback (e : ApiError) :
    getPlatforms (.error e)
      = { crypto := [{ id := "wallet", name := "Wallet", icon := "/wallet.svg"
                     , category := .crypto }]
        , banks := [{ id := "plaid", name := "Plaid", icon := "/plaid.svg"
                    , category := .bank }]
        , brokers := [] } := rfl

/-- C9: `getConnectedPlatforms` flattens the payload to one `Platform`
record per account, taking id and name from the account and icon and
category from the enclosing platform; one platform with two accounts
yields exactly its two accounts' records; on failure the result is
empty. -/
theorem getConnectedPlatforms_spec (data : List ConnectedItem)
    (e : ApiError) (bp : BackendPlatform) (a b : ConnectedAccount) :
    getConnectedPlatforms (.ok data)
      = data.flatMap (fun item => item.accounts.map (fun account =>
          { id := account.id
          , name := account.name
          , icon := item.platform.icon
          , category := item.platform.category })) ∧
    getConnectedPlatforms (.ok [⟨bp, [a, b]⟩])
      = [ { id := a.id, name := a.name, icon := bp.icon
          , category := bp.category }
        , { id := b.id, name := b.name, icon := bp.icon
          , category := bp.category } ] ∧
    getConnectedPlatforms (.error e) = [] := by
  refine ⟨?_, rfl, rfl⟩
  have h := nested_foldl_push_eq_flatMap
    (fun (item : ConnectedItem) (account : ConnectedAccount) =>
      ({ id := account.id
       , name := account.name
       , icon := item.platform.icon
       , category := item.platform.category } : Platform))
    (fun item => item.accounts) data []
  simpa [getConnectedPlatforms] using h

/-- C10: on the success path the `platformId` of the result is the
backend response's `platform_id`, not the input argument — witnessed by
a response whose `platform_id` differs from the argument — and only on
the failure path is the input echoed back. -/
theorem connect_platformId_from_response :
    (∀ (pid : String) (creds : Credentials)
        (resp : BackendConnectionResponse),
      (connectWithCredentials pid creds (.ok resp)).platformId
        = resp.platform_id) ∧
    (∀ (pid : String) (keys : ApiKeyCredentials)
        (resp : BackendConnectionResponse),
      (connectWithApiKey pid keys (.ok resp)).platformId
        = resp.platform_id) ∧
    (∃ (pid : String) (creds : Credentials)
        (resp : BackendConnectionResponse),
      (connectWithCredentials pid creds (.ok resp)).platformId ≠ pid) ∧
    (∃ (pid : String) (keys : ApiKeyCredentials)
        (resp : BackendConnectionResponse),
      (connectWithApiKey pid keys (.ok resp)).platformId ≠ pid) ∧
    (∀ (pid : String) (creds : Credentials) (keys : ApiKeyCredentials)
        (e : ApiError),
      (connectWithCredentials pid creds (.error e)).platformId = pid ∧
      (connectWithApiKey pid keys (.error e)).platformId = pid) := by
  refine ⟨fun _ _ _ => rfl, fun _ _ _ => rfl, ?_, ?_, fun _ _ _ _ => ⟨rfl, rfl⟩⟩
  · exact ⟨"kraken", [], ⟨"binance", .success, none, none⟩, by decide⟩
  · exact ⟨"kraken", ⟨"k", "s"⟩, ⟨"binance", .success, none, none⟩, by decide⟩

end Altrion
